import Mathlib

/-!
Shallow embedding of the anonymous-chat matchmaking engine of the repository
(the waiting queue, the session registry, the compatibility policy and the
four user entry points begin-search / cancel-search / stop-session /
next-session), together with theorems settling the frozen claims about it.

The engine's state in the source is a pair of in-process containers:
`chat_partners` (a dict pairing user ids) and `waiting_users` (a set of user
ids), plus a per-user profile cache `user_data` holding gender, premium flag
and search-gender preference.  We model the dict as an association list with
unique keys, the set as a duplicate-free list (its order standing for the
set's iteration sequence), and the profile cache as a total function from
user ids to profiles.  Every outgoing bot message is recorded in a log so
notification behaviour is provable; database refreshes (`ensure_user_loaded`,
`ensure_user_record`) touch only the profile cache and are modelled as no-ops
on engine state.
-/

namespace Notbag

/-- Gender values stored by the bot: the two strings written by the gender
callback handler.  `Option Gender` models the gender field, `none` standing
for an unset (NULL / falsy) value. -/
inductive Gender
  | male
  | female
  deriving DecidableEq, Fintype

/-- One user's cached record in `user_data`: gender, premium flag and
search-gender preference.  The preference is `Option Gender`, with `none`
standing for the default value (match anyone), to which the source
normalises every falsy stored value. -/
structure Profile where
  gender : Option Gender
  premium : Bool
  searchGender : Option Gender
  deriving DecidableEq, Fintype

/-- The profile cache `user_data`, as a total lookup. -/
abbrev UserData := Nat → Profile

/-- Tags for the distinct bot messages the engine can send, one per
`bot.send_message` text in the modelled handlers. -/
inductive Msg
  | alreadyQueued
  | searchStarted
  | stopSearchPrompt
  | addedToQueue
  | chatControls
  | searchStopped
  | notSearching
  | mainMenu
  | youBroke
  | partnerBroke
  | noActiveDialog
  | searchingNew
  | partnerNewSearch
  | genderPrompt
  | subscriptionPrompt
  deriving DecidableEq

/-- Lookup in the `chat_partners` dict (association list with unique keys). -/
def dictGet : List (Nat × Nat) → Nat → Option Nat
  | [], _ => none
  | e :: rest, k => if e.1 = k then some e.2 else dictGet rest k

/-- Dict assignment `m[k] = v`: overwrite the existing entry for `k`, or
append a fresh one. -/
def dictSet (m : List (Nat × Nat)) (k v : Nat) : List (Nat × Nat) :=
  match m with
  | [] => [(k, v)]
  | e :: rest => if e.1 = k then (k, v) :: rest else e :: dictSet rest k v

/-- Dict deletion `del m[k]`.  Python raises `KeyError` when `k` is absent;
every deletion in the modelled handlers is reached only when `k` is mapped,
and the theorems below apply it only under hypotheses guaranteeing that, so
a total remove-if-present is faithful there. -/
def dictDel : List (Nat × Nat) → Nat → List (Nat × Nat)
  | [], _ => []
  | e :: rest, k => if e.1 = k then dictDel rest k else e :: dictDel rest k

/-- The set insertion `waiting_users.add`: a set insertion, a no-op when already present. -/
def setAdd (l : List Nat) (x : Nat) : List Nat :=
  if x ∈ l then l else l ++ [x]

/-- The helper `_user_gender(user_id)`: the cached gender, `None` when unset. -/
def _user_gender (ud : UserData) (u : Nat) : Option Gender :=
  (ud u).gender

/-- The helper `_user_preference(user_id)`: the stored search preference for premium
users, the default (anyone) otherwise. -/
def _user_preference (ud : UserData) (u : Nat) : Option Gender :=
  if (ud u).premium then (ud u).searchGender else none

/-- The policy `can_users_chat(user_a, user_b)`: the compatibility policy.  False when
either gender is unset; otherwise false when either side's effective
preference is set and differs from the other side's gender. -/
def can_users_chat (ud : UserData) (a b : Nat) : Bool :=
  match _user_gender ud a, _user_gender ud b with
  | some ga, some gb =>
      let prefA := _user_preference ud a
      let prefB := _user_preference ud b
      if prefA ≠ none ∧ prefA ≠ some gb then false
      else if prefB ≠ none ∧ prefB ≠ some ga then false
      else true
  | _, _ => false

/-- The compatibility policy as a function of the two profiles alone;
`can_users_chat ud a b` is definitionally `canPairProfiles (ud a) (ud b)`. -/
def canPairProfiles (pa pb : Profile) : Bool :=
  match pa.gender, pb.gender with
  | some ga, some gb =>
      let prefA := if pa.premium then pa.searchGender else none
      let prefB := if pb.premium then pb.searchGender else none
      if prefA ≠ none ∧ prefA ≠ some gb then false
      else if prefB ≠ none ∧ prefB ≠ some ga then false
      else true
  | _, _ => false

/-- The compatibility predicate as the specification words it: false exactly
when a gender is unset, or when one side's effective preference
(`search_preference` if premium, else Any) is not Any and differs from the
other side's gender. -/
def canMatchSpec (pa pb : Profile) : Bool :=
  match pa.gender, pb.gender with
  | some ga, some gb =>
      let ea := if pa.premium then pa.searchGender else none
      let eb := if pb.premium then pb.searchGender else none
      decide (¬ (ea ≠ none ∧ ea ≠ some gb) ∧ ¬ (eb ≠ none ∧ eb ≠ some ga))
  | _, _ => false

/-- The scan loop of `find_partner_for_user`: walk the iteration sequence of
`waiting_users`, skip the requester, return the first compatible member. -/
def find_partner_scan (ud : UserData) (uid : Nat) : List Nat → Option Nat
  | [] => none
  | p :: rest =>
      if p = uid then find_partner_scan ud uid rest
      else if can_users_chat ud uid p then some p
      else find_partner_scan ud uid rest

/-- The scan `find_partner_for_user(user_id)`: returns the first compatible waiting
member and the queue after the call — the source removes the found member
from `waiting_users` before returning it. -/
def find_partner_for_user (ud : UserData) (uid : Nat) (waiting : List Nat) :
    Option Nat × List Nat :=
  match find_partner_scan ud uid waiting with
  | some p => (some p, waiting.erase p)
  | none => (none, waiting)

/-- The full engine state: the waiting queue, the session registry and the
log of sent messages. -/
structure EngineState where
  waiting : List Nat
  chatPartners : List (Nat × Nat)
  sent : List (Nat × Msg)
  deriving DecidableEq

/-- The initial state: empty containers, nothing sent. -/
def EngineState.empty : EngineState :=
  ⟨[], [], []⟩

/-- The call `bot.send_message(uid, m)`: append to the message log. -/
def send (st : EngineState) (uid : Nat) (m : Msg) : EngineState :=
  { st with sent := st.sent ++ [(uid, m)] }

/-- The helper `send_chat_controls(chat_id)`. -/
def send_chat_controls (st : EngineState) (uid : Nat) : EngineState :=
  send st uid Msg.chatControls

/-- The helper `show_stop_search_button(chat_id)`. -/
def show_stop_search_button (st : EngineState) (uid : Nat) : EngineState :=
  send st uid Msg.stopSearchPrompt

/-- The helper `show_main_buttons(chat_id)`. -/
def show_main_buttons (st : EngineState) (uid : Nat) : EngineState :=
  send st uid Msg.mainMenu

/-- The prompt `ask_gender(user_id)`: only sends the gender prompt. -/
def ask_gender (st : EngineState) (uid : Nat) : EngineState :=
  send st uid Msg.genderPrompt

/-- The commit `connect_users(user_id, partner_id)`: insert both directions into
`chat_partners`, then send the chat controls to both. -/
def connect_users (st : EngineState) (uid pid : Nat) : EngineState :=
  let st1 := { st with chatPartners := dictSet (dictSet st.chatPartners uid pid) pid uid }
  send_chat_controls (send_chat_controls st1 uid) pid

/-- The matcher `begin_search_for_user(user_id)`: short-circuit when already queued;
otherwise announce the search, scan for a partner (the scan removes a found
candidate from the queue), and either connect the pair or enqueue the
requester. -/
def begin_search_for_user (ud : UserData) (uid : Nat) (st : EngineState) : EngineState :=
  if uid ∈ st.waiting then
    send st uid Msg.alreadyQueued
  else
    let st1 := show_stop_search_button (send st uid Msg.searchStarted) uid
    match find_partner_for_user ud uid st1.waiting with
    | (some pid, w) => connect_users { st1 with waiting := w } uid pid
    | (none, w) => send { st1 with waiting := setAdd w uid } uid Msg.addedToQueue

/-- The begin-search entry point `start_search`: subscription gate, then the
gender gate (`ask_gender` and stop when unset), then
`begin_search_for_user`.  `ensure_user_loaded` only refreshes the profile
cache and is a no-op on engine state. -/
def start_search (ud : UserData) (subscribed : Nat → Bool) (uid : Nat)
    (st : EngineState) : EngineState :=
  if subscribed uid then
    if (ud uid).gender = none then ask_gender st uid
    else begin_search_for_user ud uid st
  else send st uid Msg.subscriptionPrompt

/-- The cancel-search entry point `stop_search`: dequeue and confirm when
waiting, otherwise report not searching; always reshow the main menu. -/
def stop_search (uid : Nat) (st : EngineState) : EngineState :=
  let st1 :=
    if uid ∈ st.waiting then
      send { st with waiting := st.waiting.erase uid } uid Msg.searchStopped
    else
      send st uid Msg.notSearching
  show_main_buttons st1 uid

/-- The stop-session entry point `stop_chat`: when paired, notify both
sides, delete both registry entries and reshow both main menus; otherwise
report no active dialog. -/
def stop_chat (uid : Nat) (st : EngineState) : EngineState :=
  match dictGet st.chatPartners uid with
  | some pid =>
      let st1 := send (send st uid Msg.youBroke) pid Msg.partnerBroke
      let st2 := { st1 with chatPartners := dictDel (dictDel st1.chatPartners uid) pid }
      show_main_buttons (show_main_buttons st2 uid) pid
  | none =>
      show_main_buttons (send st uid Msg.noActiveDialog) uid

/-- The next-session entry point `next_chat`: when unpaired, only report no
active dialog; when paired, notify both sides, delete both registry entries,
reshow the partner's menu, then re-run the matching attempt for the
requester (asking for gender instead when it is unset). -/
def next_chat (ud : UserData) (uid : Nat) (st : EngineState) : EngineState :=
  match dictGet st.chatPartners uid with
  | none => send st uid Msg.noActiveDialog
  | some pid =>
      let st1 := send (send st uid Msg.searchingNew) pid Msg.partnerNewSearch
      let st2 := { st1 with chatPartners := dictDel (dictDel st1.chatPartners uid) pid }
      let st3 := show_main_buttons st2 pid
      if (ud uid).gender = none then ask_gender st3 uid
      else begin_search_for_user ud uid st3

/-- The four entry points of the state machine. -/
inductive Action
  | beginSearch (uid : Nat)
  | cancelSearch (uid : Nat)
  | stopSession (uid : Nat)
  | nextSession (uid : Nat)

/-- One handler invocation. -/
def step (ud : UserData) (subscribed : Nat → Bool) (st : EngineState) :
    Action → EngineState
  | Action.beginSearch uid => start_search ud subscribed uid st
  | Action.cancelSearch uid => stop_search uid st
  | Action.stopSession uid => stop_chat uid st
  | Action.nextSession uid => next_chat ud uid st

/-- Run a sequence of entry-point invocations from the empty state. -/
def run (ud : UserData) (subscribed : Nat → Bool) (acts : List Action) : EngineState :=
  acts.foldl (step ud subscribed) EngineState.empty

/-- A concrete profile cache for witnesses: every user male, not premium,
default preference. -/
def udAllMale : UserData :=
  fun _ => ⟨some Gender.male, false, none⟩

/-- A concrete subscription oracle for witnesses: everyone subscribed. -/
def subAll : Nat → Bool :=
  fun _ => true

/-- Iteration order of a CPython set holding distinct small non-negative
ints.  For distinct values below 8 (at most four of them, so the initial
table of eight slots is never resized), `hash(n) = n` places value `n` in
slot `n` and iteration scans the slots in ascending index order, so the set
yields its members in ascending value order, whatever the insertion order
was.  The argument lists the inserted values. -/
def pySetIterSmall (inserted : List Nat) : List Nat :=
  (List.range 8).filter (fun n => n ∈ inserted)

/-! ### Helper lemmas on the dictionary and the scan -/

theorem dictGet_dictSet_self (m : List (Nat × Nat)) (k v : Nat) :
    dictGet (dictSet m k v) k = some v := by
  induction m with
  | nil => simp [dictSet, dictGet]
  | cons e rest ih =>
      by_cases h : e.1 = k
      · simp [dictSet, h, dictGet]
      · simp [dictSet, h, dictGet, ih]

theorem dictGet_dictSet_ne (m : List (Nat × Nat)) (k v k' : Nat) (h : k' ≠ k) :
    dictGet (dictSet m k v) k' = dictGet m k' := by
  induction m with
  | nil => simp [dictSet, dictGet, Ne.symm h]
  | cons e rest ih =>
      by_cases he : e.1 = k
      · subst he
        simp [dictSet, dictGet, Ne.symm h]
      · simp [dictSet, he, dictGet, ih]

theorem dictGet_dictDel_self (m : List (Nat × Nat)) (k : Nat) :
    dictGet (dictDel m k) k = none := by
  induction m with
  | nil => simp [dictDel, dictGet]
  | cons e rest ih =>
      by_cases h : e.1 = k
      · simp [dictDel, h, ih]
      · simp [dictDel, h, dictGet, ih]

theorem dictGet_dictDel_ne (m : List (Nat × Nat)) (k k' : Nat) (h : k' ≠ k) :
    dictGet (dictDel m k) k' = dictGet m k' := by
  induction m with
  | nil => simp [dictDel]
  | cons e rest ih =>
      by_cases he : e.1 = k
      · subst he
        simp [dictDel, dictGet, Ne.symm h, ih]
      · simp [dictDel, he, dictGet, ih]

theorem find_partner_scan_eq_head (ud : UserData) (uid : Nat) (w : List Nat) :
    find_partner_scan ud uid w =
      (w.filter (fun p => decide (p ≠ uid) && can_users_chat ud uid p)).head? := by
  induction w with
  | nil => rfl
  | cons p rest ih =>
      by_cases h : p = uid
      · subst h
        simp [find_partner_scan, ih]
      · by_cases hc : can_users_chat ud uid p
        · simp [find_partner_scan, h, hc]
        · simp [find_partner_scan, h, hc, ih]

theorem find_partner_scan_mem (ud : UserData) (uid : Nat) (w : List Nat) (p : Nat)
    (h : find_partner_scan ud uid w = some p) :
    p ∈ w ∧ p ≠ uid ∧ can_users_chat ud uid p = true := by
  induction w with
  | nil => simp [find_partner_scan] at h
  | cons q rest ih =>
      by_cases hq : q = uid
      · rw [find_partner_scan, if_pos hq] at h
        rcases ih h with ⟨hm, hne, hc⟩
        exact ⟨List.mem_cons_of_mem _ hm, hne, hc⟩
      · by_cases hc : can_users_chat ud uid q
        · rw [find_partner_scan, if_neg hq, if_pos hc] at h
          cases h
          exact ⟨List.mem_cons_self _ _, hq, hc⟩
        · rw [find_partner_scan, if_neg hq, if_neg hc] at h
          rcases ih h with ⟨hm, hne, hcc⟩
          exact ⟨List.mem_cons_of_mem _ hm, hne, hcc⟩

theorem find_partner_some (ud : UserData) (uid : Nat) (w : List Nat) (q : Nat)
    (hs : find_partner_scan ud uid w = some q) :
    find_partner_for_user ud uid w = (some q, w.erase q) := by
  unfold find_partner_for_user
  rw [hs]

theorem find_partner_none (ud : UserData) (uid : Nat) (w : List Nat)
    (hs : find_partner_scan ud uid w = none) :
    find_partner_for_user ud uid w = (none, w) := by
  unfold find_partner_for_user
  rw [hs]

theorem begin_search_cases (ud : UserData) (uid : Nat) (st : EngineState)
    (hw : uid ∉ st.waiting) :
    (∀ p, find_partner_scan ud uid st.waiting = some p →
      (begin_search_for_user ud uid st).waiting = st.waiting.erase p ∧
      (begin_search_for_user ud uid st).chatPartners
        = dictSet (dictSet st.chatPartners uid p) p uid) ∧
    (find_partner_scan ud uid st.waiting = none →
      (begin_search_for_user ud uid st).waiting = st.waiting ++ [uid] ∧
      (begin_search_for_user ud uid st).chatPartners = st.chatPartners) := by
  constructor
  · intro p hp
    simp [begin_search_for_user, if_neg hw, show_stop_search_button, send,
      find_partner_for_user, hp, connect_users, send_chat_controls]
  · intro hp
    simp [begin_search_for_user, if_neg hw, show_stop_search_button, send,
      find_partner_for_user, hp, setAdd, hw]

theorem begin_search_sent_mono (ud : UserData) (uid : Nat) (st : EngineState)
    (x : Nat × Msg) (hx : x ∈ st.sent) :
    x ∈ (begin_search_for_user ud uid st).sent := by
  by_cases hw : uid ∈ st.waiting
  · simp [begin_search_for_user, hw, send, hx]
  · cases hp : find_partner_scan ud uid st.waiting with
    | some p =>
        simp [begin_search_for_user, if_neg hw, show_stop_search_button, send,
          find_partner_for_user, hp, connect_users, send_chat_controls, hx]
    | none =>
        simp [begin_search_for_user, if_neg hw, show_stop_search_button, send,
          find_partner_for_user, hp, hx]

theorem canPairProfiles_eq_spec :
    ∀ pa pb : Profile, canPairProfiles pa pb = canMatchSpec pa pb := by
  decide

theorem canPairProfiles_symm :
    ∀ pa pb : Profile, canPairProfiles pa pb = canPairProfiles pb pa := by
  decide

theorem canPairProfiles_nonpremium :
    ∀ (g sp sp' : Option Gender) (pb : Profile),
      canPairProfiles ⟨g, false, sp⟩ pb = canPairProfiles ⟨g, false, sp'⟩ pb ∧
      canPairProfiles pb ⟨g, false, sp⟩ = canPairProfiles pb ⟨g, false, sp'⟩ := by
  decide

theorem can_users_chat_eq_profiles (ud : UserData) (a b : Nat) :
    can_users_chat ud a b = canPairProfiles (ud a) (ud b) := rfl

/-! ### The claims -/

/-- Claim C1.  The claimed mutual-exclusion invariant fails on a reachable
state: after user 1 begins a search, user 2 begins a search and is paired
with 1, and user 1 — still paired — begins a search again, user 1 is
simultaneously a member of the waiting queue and a key of the session
registry.  The begin-search entry point never removes a paired requester
from the registry, so it re-enqueues them while their pairing persists. -/
theorem c1_mutual_exclusion_violated :
    1 ∈ (run udAllMale subAll
        [Action.beginSearch 1, Action.beginSearch 2, Action.beginSearch 1]).waiting ∧
    dictGet (run udAllMale subAll
        [Action.beginSearch 1, Action.beginSearch 2, Action.beginSearch 1]).chatPartners 1
      = some 2 := by
  decide

/-- Claim C2.  The claimed symmetry invariant of the session registry fails
on a reachable state: users 1 and 2 get paired, user 3 enqueues, and then
user 1 — still paired with 2 — begins a search again and is paired with 3.
The registry then maps 2 to 1 but 1 to 3, so partner-of(partner-of(2)) is 3,
not 2. -/
theorem c2_symmetry_violated :
    dictGet (run udAllMale subAll
        [Action.beginSearch 1, Action.beginSearch 2, Action.beginSearch 3,
          Action.beginSearch 1]).chatPartners 2 = some 1 ∧
    dictGet (run udAllMale subAll
        [Action.beginSearch 1, Action.beginSearch 2, Action.beginSearch 3,
          Action.beginSearch 1]).chatPartners 1 = some 3 ∧
    ((dictGet (run udAllMale subAll
        [Action.beginSearch 1, Action.beginSearch 2, Action.beginSearch 3,
          Action.beginSearch 1]).chatPartners 2).bind
      (dictGet (run udAllMale subAll
        [Action.beginSearch 1, Action.beginSearch 2, Action.beginSearch 3,
          Action.beginSearch 1]).chatPartners) ≠ some 2) := by
  decide

/-- Claim C3, counterexample.  The find-compatible scan does not leave the
waiting queue unchanged: with user 2 waiting and compatible, the scan for
user 1 returns 2 and removes it, so the queue after the call differs from
the queue before. -/
theorem c3_counterexample :
    (find_partner_for_user udAllMale 1 [2]).2 ≠ [2] := by
  decide

/-- Claim C3, amended.  `find_partner_for_user` leaves the waiting queue
unchanged when it returns no candidate; when it returns a candidate, that
candidate was a queue member distinct from the requester and is removed
from the queue by the call itself. -/
theorem c3_find_queue_effect (ud : UserData) (uid : Nat) (w : List Nat) :
    ((find_partner_for_user ud uid w).1 = none → (find_partner_for_user ud uid w).2 = w) ∧
    (∀ p, (find_partner_for_user ud uid w).1 = some p →
      p ∈ w ∧ p ≠ uid ∧ (find_partner_for_user ud uid w).2 = w.erase p) := by
  constructor
  · intro h
    cases hs : find_partner_scan ud uid w with
    | some q => rw [find_partner_some ud uid w q hs] at h; simp at h
    | none => rw [find_partner_none ud uid w hs]
  · intro p h
    cases hs : find_partner_scan ud uid w with
    | some q =>
        rw [find_partner_some ud uid w q hs] at h
        simp at h
        subst h
        rcases find_partner_scan_mem ud uid w q hs with ⟨hm, hne, _⟩
        exact ⟨hm, hne, by rw [find_partner_some ud uid w q hs]⟩
    | none => rw [find_partner_none ud uid w hs] at h; simp at h

/-- Witness for the amended C3 theorem at a concrete input. -/
theorem c3_find_queue_effect_witness :
    (find_partner_for_user udAllMale 1 [2]).1 = some 2 ∧
    ((2 : Nat) ∈ [2] ∧ (2 : Nat) ≠ 1 ∧
      (find_partner_for_user udAllMale 1 [2]).2 = ([2] : List Nat).erase 2) :=
  ⟨by decide, (c3_find_queue_effect udAllMale 1 [2]).2 2 (by decide)⟩

/-- Claim C5, counterexample.  The scan follows the waiting set's iteration
order, which in CPython is hash-table order, not insertion order: with users
5 and 3 inserted in that order, all users mutually compatible, the set
iterates 3 before 5 and the scan for requester 1 returns 3, while the first
compatible member in insertion order is 5. -/
theorem c5_counterexample :
    find_partner_scan udAllMale 1 (pySetIterSmall [5, 3]) = some 3 ∧
    (([5, 3] : List Nat).filter
      (fun p => decide (p ≠ 1) && can_users_chat udAllMale 1 p)).head? = some 5 ∧
    (3 : Nat) ≠ 5 := by
  decide

/-- Claim C5, amended.  Over the iteration sequence of the waiting set
(hash-table order in CPython, not insertion order), the scan returns exactly
the first member that is distinct from the requester and compatible with
them; in particular it returns `none` on the empty queue and on a queue
holding only the requester, and it never returns the requester. -/
theorem c5_scan_first (ud : UserData) (uid : Nat) (w : List Nat) :
    find_partner_scan ud uid w =
      (w.filter (fun p => decide (p ≠ uid) && can_users_chat ud uid p)).head? ∧
    find_partner_scan ud uid ([] : List Nat) = none ∧
    find_partner_scan ud uid [uid] = none := by
  refine ⟨find_partner_scan_eq_head ud uid w, rfl, ?_⟩
  simp [find_partner_scan]

/-- Claim C6.  The compatibility policy equals the specification's
predicate: false exactly when a gender is unset or a set effective
preference (stored preference if premium, otherwise Any) differs from the
other side's gender; it is symmetric in its two arguments; and a
non-premium profile's stored search preference never influences the
outcome, on either side. -/
theorem c6_can_match (ud : UserData) (a b : Nat) :
    can_users_chat ud a b = canMatchSpec (ud a) (ud b) ∧
    can_users_chat ud a b = can_users_chat ud b a ∧
    (∀ (g sp sp' : Option Gender) (pb : Profile),
      canPairProfiles ⟨g, false, sp⟩ pb = canPairProfiles ⟨g, false, sp'⟩ pb ∧
      canPairProfiles pb ⟨g, false, sp⟩ = canPairProfiles pb ⟨g, false, sp'⟩) := by
  refine ⟨?_, ?_, canPairProfiles_nonpremium⟩
  · rw [can_users_chat_eq_profiles]
    exact canPairProfiles_eq_spec (ud a) (ud b)
  · rw [can_users_chat_eq_profiles, can_users_chat_eq_profiles]
    exact canPairProfiles_symm (ud a) (ud b)

/-- Claim C4.  For a requester with a set gender who is not already queued:
when the scan finds a compatible candidate `p`, begin-search removes `p`
from the queue, never enqueues the requester, and the registry gains exactly
the two entries requester-to-`p` and `p`-to-requester; when no candidate is
compatible, the requester is appended to the queue and the registry is
unchanged. -/
theorem c4_begin_search (ud : UserData) (uid : Nat) (st : EngineState)
    (hg : (ud uid).gender ≠ none) (hw : uid ∉ st.waiting) :
    (∀ p, find_partner_scan ud uid st.waiting = some p →
      (begin_search_for_user ud uid st).waiting = st.waiting.erase p ∧
      uid ∉ (begin_search_for_user ud uid st).waiting ∧
      dictGet (begin_search_for_user ud uid st).chatPartners uid = some p ∧
      dictGet (begin_search_for_user ud uid st).chatPartners p = some uid ∧
      (∀ x, x ≠ uid → x ≠ p →
        dictGet (begin_search_for_user ud uid st).chatPartners x
          = dictGet st.chatPartners x)) ∧
    (find_partner_scan ud uid st.waiting = none →
      (begin_search_for_user ud uid st).waiting = st.waiting ++ [uid] ∧
      (begin_search_for_user ud uid st).chatPartners = st.chatPartners) := by
  rcases begin_search_cases ud uid st hw with ⟨hsome, hnone⟩
  refine ⟨?_, hnone⟩
  intro p hp
  rcases hsome p hp with ⟨hwq, hcp⟩
  rcases find_partner_scan_mem ud uid st.waiting p hp with ⟨hm, hne, _⟩
  refine ⟨hwq, ?_, ?_, ?_, ?_⟩
  · rw [hwq]
    intro hmem
    exact hw (List.erase_subset _ _ hmem)
  · rw [hcp, dictGet_dictSet_ne _ p uid uid (Ne.symm hne), dictGet_dictSet_self]
  · rw [hcp, dictGet_dictSet_self]
  · intro x hxu hxp
    rw [hcp, dictGet_dictSet_ne _ p uid x hxp, dictGet_dictSet_ne _ uid p x hxu]

/-- Witness for C4 at a concrete input: requester 1, queue holding the
compatible user 2. -/
theorem c4_begin_search_witness :
    (udAllMale 1).gender ≠ none ∧ (1 : Nat) ∉ ([2] : List Nat) ∧
    find_partner_scan udAllMale 1 [2] = some 2 ∧
    ((begin_search_for_user udAllMale 1 ⟨[2], [], []⟩).waiting
        = ([2] : List Nat).erase 2 ∧
      (1 : Nat) ∉ (begin_search_for_user udAllMale 1 ⟨[2], [], []⟩).waiting ∧
      dictGet (begin_search_for_user udAllMale 1 ⟨[2], [], []⟩).chatPartners 1 = some 2 ∧
      dictGet (begin_search_for_user udAllMale 1 ⟨[2], [], []⟩).chatPartners 2 = some 1 ∧
      (∀ x, x ≠ 1 → x ≠ 2 →
        dictGet (begin_search_for_user udAllMale 1 ⟨[2], [], []⟩).chatPartners x
          = dictGet ([] : List (Nat × Nat)) x)) :=
  ⟨by decide, by decide, by decide,
    (c4_begin_search udAllMale 1 ⟨[2], [], []⟩ (by decide) (by decide)).1 2 (by decide)⟩

/-- A profile cache for witnesses in which every gender is unset. -/
def udUnset : UserData :=
  fun _ => ⟨none, false, none⟩

/-- Claim C7.  For a subscribed user whose gender is unset, the begin-search
entry point only sends the gender prompt: the waiting queue and the session
registry are untouched. -/
theorem c7_profile_incomplete (ud : UserData) (subscribed : Nat → Bool) (uid : Nat)
    (st : EngineState) (hsub : subscribed uid = true) (hg : (ud uid).gender = none) :
    (start_search ud subscribed uid st).waiting = st.waiting ∧
    (start_search ud subscribed uid st).chatPartners = st.chatPartners ∧
    (start_search ud subscribed uid st).sent = st.sent ++ [(uid, Msg.genderPrompt)] := by
  simp [start_search, hsub, hg, ask_gender, send]

/-- Witness for C7 at a concrete input: subscribed user 3 with unset
gender, starting from the empty state. -/
theorem c7_profile_incomplete_witness :
    subAll 3 = true ∧ (udUnset 3).gender = none ∧
    ((start_search udUnset subAll 3 EngineState.empty).waiting
        = EngineState.empty.waiting ∧
      (start_search udUnset subAll 3 EngineState.empty).chatPartners
        = EngineState.empty.chatPartners ∧
      (start_search udUnset subAll 3 EngineState.empty).sent
        = EngineState.empty.sent ++ [(3, Msg.genderPrompt)]) :=
  ⟨rfl, rfl, c7_profile_incomplete udUnset subAll 3 EngineState.empty rfl rfl⟩

/-- Claim C9.  For a user with no active partner, both the stop-session and
the next-session entry points leave the waiting queue and the session
registry unchanged and only send the no-active-dialog notification (the
stop handler additionally reshows the main menu). -/
theorem c9_not_paired_noop (ud : UserData) (uid : Nat) (st : EngineState)
    (h : dictGet st.chatPartners uid = none) :
    (stop_chat uid st).waiting = st.waiting ∧
    (stop_chat uid st).chatPartners = st.chatPartners ∧
    (stop_chat uid st).sent
      = st.sent ++ [(uid, Msg.noActiveDialog), (uid, Msg.mainMenu)] ∧
    (next_chat ud uid st).waiting = st.waiting ∧
    (next_chat ud uid st).chatPartners = st.chatPartners ∧
    (next_chat ud uid st).sent = st.sent ++ [(uid, Msg.noActiveDialog)] := by
  have hs : stop_chat uid st = show_main_buttons (send st uid Msg.noActiveDialog) uid := by
    unfold stop_chat
    rw [h]
  have hn : next_chat ud uid st = send st uid Msg.noActiveDialog := by
    unfold next_chat
    rw [h]
  simp [hs, hn, show_main_buttons, send]

/-- Witness for C9 at a concrete input: user 7, empty registry. -/
theorem c9_not_paired_noop_witness :
    dictGet EngineState.empty.chatPartners 7 = none ∧
    ((stop_chat 7 EngineState.empty).waiting = EngineState.empty.waiting ∧
      (stop_chat 7 EngineState.empty).chatPartners = EngineState.empty.chatPartners ∧
      (stop_chat 7 EngineState.empty).sent
        = EngineState.empty.sent ++ [(7, Msg.noActiveDialog), (7, Msg.mainMenu)] ∧
      (next_chat udAllMale 7 EngineState.empty).waiting = EngineState.empty.waiting ∧
      (next_chat udAllMale 7 EngineState.empty).chatPartners
        = EngineState.empty.chatPartners ∧
      (next_chat udAllMale 7 EngineState.empty).sent
        = EngineState.empty.sent ++ [(7, Msg.noActiveDialog)]) :=
  ⟨rfl, c9_not_paired_noop udAllMale 7 EngineState.empty rfl⟩

/-- Claim C10.  For a user not in the waiting queue, the cancel-search entry
point leaves the queue and the registry unchanged and only sends the
not-searching notification followed by the main menu; in particular it never
disconnects an active session. -/
theorem c10_cancel_not_searching (uid : Nat) (st : EngineState)
    (h : uid ∉ st.waiting) :
    (stop_search uid st).waiting = st.waiting ∧
    (stop_search uid st).chatPartners = st.chatPartners ∧
    (stop_search uid st).sent
      = st.sent ++ [(uid, Msg.notSearching), (uid, Msg.mainMenu)] := by
  simp [stop_search, if_neg h, show_main_buttons, send]

/-- Witness for C10 at a concrete input: user 4, not queued, while a
session between 1 and 2 is active. -/
theorem c10_cancel_not_searching_witness :
    (4 : Nat) ∉ ([] : List Nat) ∧
    ((stop_search 4 ⟨[], [(1, 2), (2, 1)], []⟩).waiting = ([] : List Nat) ∧
      (stop_search 4 ⟨[], [(1, 2), (2, 1)], []⟩).chatPartners
        = ([(1, 2), (2, 1)] : List (Nat × Nat)) ∧
      (stop_search 4 ⟨[], [(1, 2), (2, 1)], []⟩).sent
        = ([] : List (Nat × Msg)) ++ [(4, Msg.notSearching), (4, Msg.mainMenu)]) :=
  ⟨by decide, c10_cancel_not_searching 4 ⟨[], [(1, 2), (2, 1)], []⟩ (by decide)⟩

theorem next_chat_paired (ud : UserData) (uid pid : Nat) (st : EngineState)
    (h1 : dictGet st.chatPartners uid = some pid) (hg : (ud uid).gender ≠ none) :
    next_chat ud uid st = begin_search_for_user ud uid
      ⟨st.waiting, dictDel (dictDel st.chatPartners uid) pid,
        st.sent ++ [(uid, Msg.searchingNew), (pid, Msg.partnerNewSearch),
          (pid, Msg.mainMenu)]⟩ := by
  unfold next_chat
  rw [h1]
  simp [send, show_main_buttons, hg]

/-- Claim C8.  For a cleanly paired couple (uid, pid) with uid's gender set
and neither side queued, when uid invokes next-session: pid's registry entry
is gone and pid is not enqueued, pid is notified that the partner started a
new search, and uid immediately re-runs the matching attempt — pairing with
the first compatible queued candidate when one exists (both fresh entries
inserted, the candidate dequeued), or being appended to the queue with no
remaining registry entry otherwise. -/
theorem c8_next_session (ud : UserData) (uid pid : Nat) (st : EngineState)
    (h1 : dictGet st.chatPartners uid = some pid)
    (h2 : dictGet st.chatPartners pid = some uid)
    (hne : uid ≠ pid) (hg : (ud uid).gender ≠ none)
    (hwu : uid ∉ st.waiting) (hwp : pid ∉ st.waiting) :
    dictGet (next_chat ud uid st).chatPartners pid = none ∧
    pid ∉ (next_chat ud uid st).waiting ∧
    (pid, Msg.partnerNewSearch) ∈ (next_chat ud uid st).sent ∧
    (∀ q, find_partner_scan ud uid st.waiting = some q →
      (next_chat ud uid st).waiting = st.waiting.erase q ∧
      dictGet (next_chat ud uid st).chatPartners uid = some q ∧
      dictGet (next_chat ud uid st).chatPartners q = some uid) ∧
    (find_partner_scan ud uid st.waiting = none →
      (next_chat ud uid st).waiting = st.waiting ++ [uid] ∧
      dictGet (next_chat ud uid st).chatPartners uid = none) := by
  have hnc := next_chat_paired ud uid pid st h1 hg
  set st3 : EngineState := ⟨st.waiting, dictDel (dictDel st.chatPartners uid) pid,
    st.sent ++ [(uid, Msg.searchingNew), (pid, Msg.partnerNewSearch),
      (pid, Msg.mainMenu)]⟩ with hst3
  rcases begin_search_cases ud uid st3 hwu with ⟨hsome, hnone⟩
  have hdelp : dictGet st3.chatPartners pid = none := dictGet_dictDel_self _ pid
  have hdelu : dictGet st3.chatPartners uid = none := by
    rw [hst3]
    show dictGet (dictDel (dictDel st.chatPartners uid) pid) uid = none
    rw [dictGet_dictDel_ne _ pid uid hne, dictGet_dictDel_self]
  refine ⟨?_, ?_, ?_, ?_, ?_⟩
  · rw [hnc]
    cases hp : find_partner_scan ud uid st.waiting with
    | some q =>
        rcases hsome q hp with ⟨_, hcp⟩
        rcases find_partner_scan_mem ud uid st.waiting q hp with ⟨hqm, hqu, _⟩
        have hpq : pid ≠ q := fun h => hwp (h ▸ hqm)
        rw [hcp, dictGet_dictSet_ne _ q uid pid hpq,
          dictGet_dictSet_ne _ uid q pid (Ne.symm hne), hdelp]
    | none =>
        rcases hnone hp with ⟨_, hcp⟩
        rw [hcp, hdelp]
  · rw [hnc]
    cases hp : find_partner_scan ud uid st.waiting with
    | some q =>
        rcases hsome q hp with ⟨hwq, _⟩
        rw [hwq]
        intro hmem
        exact hwp (List.erase_subset _ _ hmem)
    | none =>
        rcases hnone hp with ⟨hwq, _⟩
        rw [hwq]
        simp [List.mem_append, hwp, Ne.symm hne]
  · rw [hnc]
    refine begin_search_sent_mono ud uid st3 _ ?_
    simp [hst3]
  · intro q hp
    rcases hsome q hp with ⟨hwq, hcp⟩
    rcases find_partner_scan_mem ud uid st.waiting q hp with ⟨hqm, hqu, _⟩
    rw [hnc]
    refine ⟨hwq, ?_, ?_⟩
    · rw [hcp, dictGet_dictSet_ne _ q uid uid (Ne.symm hqu), dictGet_dictSet_self]
    · rw [hcp, dictGet_dictSet_self]
  · intro hp
    rcases hnone hp with ⟨hwq, hcp⟩
    rw [hnc]
    exact ⟨hwq, by rw [hcp, hdelu]⟩

/-- Witness for C8 at a concrete input: 1 and 2 paired, user 3 waiting and
compatible, user 1 invokes next-session. -/
theorem c8_next_session_witness :
    dictGet ([(1, 2), (2, 1)] : List (Nat × Nat)) 1 = some 2 ∧
    dictGet ([(1, 2), (2, 1)] : List (Nat × Nat)) 2 = some 1 ∧
    (1 : Nat) ≠ 2 ∧ (udAllMale 1).gender ≠ none ∧
    (1 : Nat) ∉ ([3] : List Nat) ∧ (2 : Nat) ∉ ([3] : List Nat) ∧
    find_partner_scan udAllMale 1 [3] = some 3 ∧
    ((next_chat udAllMale 1 ⟨[3], [(1, 2), (2, 1)], []⟩).waiting
        = ([3] : List Nat).erase 3 ∧
      dictGet (next_chat udAllMale 1 ⟨[3], [(1, 2), (2, 1)], []⟩).chatPartners 1
        = some 3 ∧
      dictGet (next_chat udAllMale 1 ⟨[3], [(1, 2), (2, 1)], []⟩).chatPartners 3
        = some 1) :=
  ⟨by decide, by decide, by decide, by decide, by decide, by decide, by decide,
    (c8_next_session udAllMale 1 2 ⟨[3], [(1, 2), (2, 1)], []⟩ (by decide) (by decide)
      (by decide) (by decide) (by decide) (by decide)).2.2.2.1 3 (by decide)⟩

end Notbag
